import Mathlib

/-!
A shallow embedding of the metric-normalization and card-rendering pipeline
of the repository's two scripts (scripts/github-cards.mjs under namespace
GH, scripts/wakatime-cards.mjs under namespace WK).

Modelling conventions: JavaScript numbers are modelled as exact rationals
except in the logarithmic grade computation, which is modelled over the
real numbers with the exact logarithm; JS Math.round x is round x,
Mathlib's floor of x + 1/2, matching ECMAScript round-half-up. JS
Math.floor and the truncating remainder are Int.fdiv and Int.tmod.
Strings are Lean Strings; integer interpolation is decimal printing
(natStr, intStr), Number.prototype.toFixed is toFixed1/toFixed2, and the
printing of the (rare) non-integer interpolated values is idealized by
jsNumStr. Template literals become explicit string concatenation, and
Array.prototype.join with a newline separator becomes joinNl.
-/

/-- One decimal digit as a character, 0 ↦ 48. -/
def digitCh (d : ℕ) : Char := Char.ofNat (48 + d)

/-- Decimal digits, most significant first, by structural recursion on a
fuel bound (any fuel at least the digit count gives the digits). -/
def natCharsAux : ℕ → ℕ → List Char
  | 0, n => [digitCh (n % 10)]
  | fuel + 1, n =>
    if n < 10 then [digitCh n]
    else natCharsAux fuel (n / 10) ++ [digitCh (n % 10)]

/-- Decimal digits of a natural number, most significant first: the JS
printing of a nonnegative integer. -/
def natChars (n : ℕ) : List Char := natCharsAux n n

/-- JS printing of a nonnegative integer. -/
def natStr (n : ℕ) : String := ⟨natChars n⟩

/-- JS printing of an integer (a leading minus sign when negative). -/
def intStr (i : ℤ) : String := if i < 0 then "-" ++ natStr i.natAbs else natStr i.natAbs

/-- Two-digit zero-padded printing of a value below 100. -/
def twoDigits (k : ℕ) : String := if k < 10 then "0" ++ natStr k else natStr k

/-- toFixed(2) for a nonnegative value: ECMAScript picks the integer n
closest to x*100, the larger on ties, i.e. round (x * 100). -/
def fixed2Core (q : ℚ) : String :=
  let n := (round (q * 100)).toNat
  natStr (n / 100) ++ "." ++ twoDigits (n % 100)

/-- Number.prototype.toFixed(2). -/
def toFixed2 (q : ℚ) : String := if q < 0 then "-" ++ fixed2Core (-q) else fixed2Core q

/-- toFixed(1) for a nonnegative value. -/
def fixed1Core (q : ℚ) : String :=
  let n := (round (q * 10)).toNat
  natStr (n / 10) ++ "." ++ natStr (n % 10)

/-- Number.prototype.toFixed(1). -/
def toFixed1 (q : ℚ) : String := if q < 0 then "-" ++ fixed1Core (-q) else fixed1Core q

/-- Idealized JS printing of a number that need not be an integer (used
only for the ring's dash lengths, where JS prints a double). An integer
prints exactly as in JS; anything else prints as an exact fraction. -/
def jsNumStr (q : ℚ) : String :=
  if q.den = 1 then intStr q.num else intStr q.num ++ "/" ++ natStr q.den

/-- The double-quote character. -/
def quotC : Char := Char.ofNat 34

/-- The apostrophe character. -/
def aposC : Char := Char.ofNat 39

/-- String.prototype.replace with a global single-character pattern:
every occurrence of c is replaced by r. -/
def replaceAll (l : List Char) (c : Char) (r : List Char) : List Char :=
  l.flatMap fun x => if x = c then r else [x]

/-- The five chained replaces shared by both scripts' escapeXml:
amp first, then lt, gt, quot, apos. -/
def escChain (l : List Char) : List Char :=
  replaceAll (replaceAll (replaceAll (replaceAll (replaceAll l '&' "&amp;".data)
    '<' "&lt;".data) '>' "&gt;".data) quotC "&quot;".data) aposC "&apos;".data

/-- The per-character escaping map the spec describes: each of the five
reserved markup characters to its entity, all others unchanged. -/
def esc1 (c : Char) : List Char :=
  if c = '&' then "&amp;".data
  else if c = '<' then "&lt;".data
  else if c = '>' then "&gt;".data
  else if c = quotC then "&quot;".data
  else if c = aposC then "&apos;".data
  else [c]

/-- Array.prototype.join with a newline separator. -/
def joinNl : List String → String
  | [] => ""
  | a :: t => t.foldl (fun acc x => acc ++ "\n" ++ x) a

/-- Occurrences of a character in a string. -/
def countCh (c : Char) (s : String) : ℕ := s.data.count c

/-- A named percentage row of a bar-list card. -/
structure MetricRow where
  name : String
  valueText : String
  percent : ℚ
deriving DecidableEq

/-- A label/value tile of the grid card. -/
structure GridItem where
  label : String
  value : String
deriving DecidableEq

/-- The grade letters. -/
inductive Letter where
  | D
  | C
  | B
  | A
  | S
deriving DecidableEq

/-- The letter as the string the source holds. -/
def Letter.str : Letter → String
  | .D => "D"
  | .C => "C"
  | .B => "B"
  | .A => "A"
  | .S => "S"

namespace GH

/-- Line 39 of github-cards.mjs: escapeXml, where String (str ?? "") maps a
missing (null or undefined) value to the empty string first. -/
def escapeXml (s : Option String) : String := ⟨escChain (s.getD "").data⟩

def themeBg1 : String := "#0B1220"

def themeBg2 : String := "#111827"

def themeTitle : String := "#E5E7EB"

def themeText : String := "#E5E7EB"

def themeMuted : String := "#94A3B8"

def themeBarBg : String := "#1F2937"

def themeStroke : String := "#334155"

def themeBars : List String :=
  ["#0EA5E9", "#22C55E", "#A78BFA", "#F59E0B", "#38BDF8", "#14B8A6", "#EAB308"]

/-- Helper of fmtNumber: commas every three digits, walking the reversed
digit list. -/
def group3Rev : List Char → ℕ → List Char
  | [], _ => []
  | c :: t, k => (if 0 < k ∧ k % 3 = 0 then [','] else []) ++ [c] ++ group3Rev t (k + 1)

/-- Number.prototype.toLocaleString with en-US grouping, on a count. -/
def fmtNumber (n : ℕ) : String := ⟨(group3Rev (natChars n).reverse 0).reverse⟩

/-- humanBytes of github-cards.mjs. -/
def humanBytes (bytes : ℚ) : String :=
  if bytes ≥ 1048576 then toFixed1 (bytes / 1048576) ++ " MB"
  else if bytes ≥ 1024 then toFixed1 (bytes / 1024) ++ " KB"
  else jsNumStr bytes ++ " B"

/-- L of computeGrade: Math.log1p (Math.max 0 x). -/
noncomputable def L (x : ℝ) : ℝ := Real.log (1 + max 0 x)

/-- norm of computeGrade: 0 when L target is 0, else min 1 (L val / L target). -/
noncomputable def norm (val target : ℝ) : ℝ :=
  if L target = 0 then 0 else min 1 (L val / L target)

/-- constOrZero of computeGrade: in the real-number model every value is
finite, so Number.isFinite always holds. -/
def constOrZero (x : ℝ) : ℝ := x

/-- The raw signal counts computeGrade receives. -/
structure GradeIn where
  commits : ℝ
  prs : ℝ
  issues : ℝ
  reviews : ℝ
  starsTotal : ℝ
  reposTotal : ℝ

/-- What computeGrade returns. -/
structure GradeOut where
  score : ℝ
  pct : ℤ
  letter : Letter

/-- The letter cascade of computeGrade lines 134-138. -/
def letterOf (pct : ℤ) : Letter :=
  if pct ≥ 85 then .S
  else if pct ≥ 70 then .A
  else if pct ≥ 55 then .B
  else if pct ≥ 40 then .C
  else .D

/-- computeGrade of github-cards.mjs: weighted sum of log-normalized
signals against the fixed targets, pct = round (score * 100), letter by
the threshold cascade. -/
noncomputable def computeGrade (g : GradeIn) : GradeOut :=
  let score :=
    0.35 * norm g.commits 4000 +
    0.20 * norm g.prs 200 +
    constOrZero 0.10 * norm g.issues 200 +
    0.10 * norm g.reviews 250 +
    0.15 * norm g.starsTotal 300 +
    0.10 * norm g.reposTotal 60
  let pct := round (score * 100)
  ⟨score, pct, letterOf pct⟩

/-- Math.PI: the exact value of the IEEE-754 double nearest pi. -/
def mathPi : ℚ := 884279719003555 / 281474976710656

/-- ringSvg of github-cards.mjs. -/
def ringSvg (cx cy : ℕ) (r : ℚ) (strokeWidth : ℕ) (pct : ℤ) (color label : String) :
    String :=
  let clamped : ℤ := max 0 (min 100 pct)
  let circ : ℚ := 2 * mathPi * r
  let dash : ℚ := circ * clamped / 100
  let gap : ℚ := circ - dash
  "\n    <g>\n      <circle cx=\"" ++ natStr cx ++ "\" cy=\"" ++ natStr cy ++
    "\" r=\"" ++ jsNumStr r ++ "\" fill=\"none\" stroke=\"" ++ themeStroke ++
    "\" stroke-width=\"" ++ natStr strokeWidth ++ "\" opacity=\"0.65\"/>\n      <circle cx=\"" ++
    natStr cx ++ "\" cy=\"" ++ natStr cy ++ "\" r=\"" ++ jsNumStr r ++
    "\" fill=\"none\" stroke=\"" ++ color ++ "\" stroke-width=\"" ++ natStr strokeWidth ++
    "\"\n              stroke-linecap=\"round\"\n              stroke-dasharray=\"" ++
    jsNumStr dash ++ " " ++ jsNumStr gap ++
    "\"\n              transform=\"rotate(-90 " ++ natStr cx ++ " " ++ natStr cy ++
    ")\"\n              filter=\"url(#barGlow)\"/>\n      <text x=\"" ++ natStr cx ++
    "\" y=\"" ++ natStr (cy + 7) ++ "\" text-anchor=\"middle\"\n            fill=\"" ++
    themeText ++ "\" font-size=\"22\" font-weight=\"900\"\n            font-family=\"ui-sans-serif, system-ui\">" ++
    escapeXml (some label) ++ "</text>\n      <text x=\"" ++ natStr cx ++ "\" y=\"" ++
    natStr (cy + 28) ++ "\" text-anchor=\"middle\"\n            fill=\"" ++ themeMuted ++
    "\" font-size=\"11\" font-weight=\"700\"\n            font-family=\"ui-sans-serif, system-ui\">" ++
    intStr clamped ++ "%</text>\n    </g>\n  "

/-- svgDefs of github-cards.mjs. -/
def svgDefs : String :=
  "\n  <defs>\n    <linearGradient id=\"bgGrad\" x1=\"0\" y1=\"0\" x2=\"1\" y2=\"1\">\n      <stop offset=\"0%\" stop-color=\"" ++
    themeBg1 ++ "\"/>\n      <stop offset=\"100%\" stop-color=\"" ++ themeBg2 ++
    "\"/>\n    </linearGradient>\n\n    <filter id=\"shadow\" x=\"-20%\" y=\"-20%\" width=\"140%\" height=\"140%\">\n      <feDropShadow dx=\"0\" dy=\"10\" stdDeviation=\"18\" flood-color=\"#000000\" flood-opacity=\"0.35\"/>\n    </filter>\n\n    <filter id=\"barGlow\" x=\"-20%\" y=\"-50%\" width=\"140%\" height=\"200%\">\n      <feDropShadow dx=\"0\" dy=\"0\" stdDeviation=\"2\" flood-color=\"#ffffff\" flood-opacity=\"0.06\"/>\n      <feDropShadow dx=\"0\" dy=\"4\" stdDeviation=\"6\" flood-color=\"#000000\" flood-opacity=\"0.22\"/>\n    </filter>\n  </defs>\n"

/-- baseCard of github-cards.mjs. -/
def baseCard (w h : ℕ) : String :=
  "<rect x=\"0\" y=\"0\" width=\"" ++ natStr w ++ "\" height=\"" ++ natStr h ++
    "\" rx=\"18\" ry=\"18\" fill=\"url(#bgGrad)\" filter=\"url(#shadow)\" />"

def width : ℕ := 900

def padding : ℕ := 28

def headerH : ℕ := 124

def rowH : ℕ := 34

def rankW : ℕ := 46

def nameX : ℕ := padding + rankW

def barX : ℕ := 380

def pctColW : ℕ := 82

def barW : ℕ := width - barX - padding - pctColW

def barH : ℕ := 10

/-- Line 305: theme.bars indexed by i modulo the list length. -/
def rowColor (i : ℕ) : String := themeBars.getD (i % themeBars.length) ""

/-- Lines 306-307: Math.round (barW * Math.max 0 (Math.min 1 (percent / 100))). -/
def fillW (percent : ℚ) : ℤ := round ((barW : ℚ) * max 0 (min 1 (percent / 100)))

/-- One row of renderBarsCard (the arrow function of lines 303-329). -/
def rowSvg (i : ℕ) (r : MetricRow) : String :=
  let y := headerH + i * rowH
  let color := rowColor i
  let fw := fillW r.percent
  let dotCx := padding + 28
  let dotCy := y - 6
  "\n        <circle cx=\"" ++ natStr dotCx ++ "\" cy=\"" ++ natStr dotCy ++
    "\" r=\"5\" fill=\"" ++ color ++ "\" opacity=\"0.95\"/>\n        <text x=\"" ++
    natStr padding ++ "\" y=\"" ++ natStr y ++ "\" fill=\"" ++ themeMuted ++
    "\" font-size=\"12\" font-weight=\"750\"\n              font-family=\"ui-sans-serif, system-ui\">#" ++
    natStr (i + 1) ++ "</text>\n\n        <text x=\"" ++ natStr nameX ++ "\" y=\"" ++
    natStr y ++ "\" fill=\"" ++ themeText ++
    "\" font-size=\"14\" font-weight=\"650\"\n              font-family=\"ui-sans-serif, system-ui\">" ++
    escapeXml (some r.name) ++ "</text>\n\n        <text x=\"" ++ natStr (barX - 16) ++
    "\" y=\"" ++ natStr y ++ "\" text-anchor=\"end\" fill=\"" ++ themeMuted ++
    "\" font-size=\"13\" font-weight=\"650\"\n              font-family=\"ui-sans-serif, system-ui\">" ++
    escapeXml (some r.valueText) ++ "</text>\n\n        <rect x=\"" ++ natStr barX ++
    "\" y=\"" ++ natStr (y - 12) ++ "\" rx=\"6\" ry=\"6\" width=\"" ++ natStr barW ++
    "\" height=\"" ++ natStr barH ++ "\" fill=\"" ++ themeBarBg ++
    "\" opacity=\"0.95\"/>\n        <rect x=\"" ++ natStr barX ++ "\" y=\"" ++
    natStr (y - 12) ++ "\" rx=\"6\" ry=\"6\" width=\"" ++ intStr fw ++
    "\" height=\"" ++ natStr barH ++ "\" fill=\"" ++ color ++
    "\" filter=\"url(#barGlow)\" />\n\n        <text x=\"" ++ natStr (width - padding) ++
    "\" y=\"" ++ natStr y ++ "\" text-anchor=\"end\" fill=\"" ++ themeMuted ++
    "\" font-size=\"13\" font-weight=\"700\"\n              font-family=\"ui-sans-serif, system-ui\">" ++
    toFixed2 r.percent ++ "%</text>\n      "

/-- The input of renderBarsCard. -/
structure BarsIn where
  title : String
  subtitleLeft : String
  totalText : String
  topText : String
  rows : List MetricRow
deriving DecidableEq

/-- renderBarsCard of github-cards.mjs (lines 285-355). -/
def renderBarsCard (inp : BarsIn) : String :=
  let height := headerH + inp.rows.length * rowH + 30
  let svgRows := joinNl (inp.rows.mapIdx rowSvg)
  "<?xml version=\"1.0\" encoding=\"UTF-8\"?>\n<svg width=\"" ++ natStr width ++
    "\" height=\"" ++ natStr height ++ "\" viewBox=\"0 0 " ++ natStr width ++ " " ++
    natStr height ++
    "\"\n     xmlns=\"http://www.w3.org/2000/svg\" role=\"img\" aria-label=\"" ++
    escapeXml (some inp.title) ++ "\">\n  " ++ svgDefs ++ "\n  " ++
    baseCard width height ++ "\n\n  <text x=\"" ++ natStr padding ++
    "\" y=\"46\" fill=\"" ++ themeTitle ++
    "\" font-size=\"22\" font-weight=\"900\"\n        font-family=\"ui-sans-serif, system-ui\">" ++
    escapeXml (some inp.title) ++ "</text>\n\n  <text x=\"" ++ natStr padding ++
    "\" y=\"72\" fill=\"" ++ themeMuted ++
    "\" font-size=\"12\" font-weight=\"650\"\n        font-family=\"ui-sans-serif, system-ui\">" ++
    escapeXml (some inp.subtitleLeft) ++ "</text>\n\n  <text x=\"" ++
    natStr (width - padding) ++ "\" y=\"46\" text-anchor=\"end\" fill=\"" ++ themeText ++
    "\" font-size=\"14\" font-weight=\"900\"\n        font-family=\"ui-sans-serif, system-ui\">" ++
    escapeXml (some inp.totalText) ++ "</text>\n\n  <text x=\"" ++
    natStr (width - padding) ++ "\" y=\"72\" text-anchor=\"end\" fill=\"" ++ themeMuted ++
    "\" font-size=\"12\" font-weight=\"650\"\n        font-family=\"ui-sans-serif, system-ui\">" ++
    escapeXml (some inp.topText) ++ "</text>\n\n  <line x1=\"" ++ natStr padding ++
    "\" y1=\"98\" x2=\"" ++ natStr (width - padding) ++ "\" y2=\"98\"\n        stroke=\"" ++
    themeStroke ++ "\" stroke-width=\"1\" opacity=\"0.75\" />\n\n  " ++ svgRows ++
    "\n</svg>"

def cols : ℕ := 3

def cardGap : ℕ := 14

def boxH : ℕ := 74

def boxW : ℕ := (width - padding * 2 - cardGap * (cols - 1)) / cols

/-- The ring color cascade of renderGridStatsCard lines 212-221. -/
def ringColor (l : Letter) : String :=
  if l = .S then themeBars.getD 1 ""
  else if l = .A then themeBars.getD 0 ""
  else if l = .B then themeBars.getD 2 ""
  else if l = .C then themeBars.getD 3 ""
  else themeMuted

/-- One tile of renderGridStatsCard (the arrow function of lines 224-244). -/
def boxSvg (idx : ℕ) (it : GridItem) : String :=
  let rr := idx / cols
  let cc := idx % cols
  let x := padding + cc * (boxW + cardGap)
  let y := headerH + rr * (boxH + cardGap)
  let accent := themeBars.getD (idx % themeBars.length) ""
  "\n        <rect x=\"" ++ natStr x ++ "\" y=\"" ++ natStr y ++
    "\" rx=\"14\" ry=\"14\" width=\"" ++ natStr boxW ++ "\" height=\"" ++ natStr boxH ++
    "\"\n              fill=\"" ++ themeBarBg ++ "\" opacity=\"0.92\" />\n        <rect x=\"" ++
    natStr x ++ "\" y=\"" ++ natStr y ++ "\" rx=\"14\" ry=\"14\" width=\"6\" height=\"" ++
    natStr boxH ++ "\"\n              fill=\"" ++ accent ++
    "\" opacity=\"0.95\" />\n\n        <text x=\"" ++ natStr (x + 18) ++ "\" y=\"" ++
    natStr (y + 28) ++ "\" fill=\"" ++ themeMuted ++
    "\" font-size=\"12\" font-weight=\"700\"\n              font-family=\"ui-sans-serif, system-ui\">" ++
    escapeXml (some it.label) ++ "</text>\n\n        <text x=\"" ++ natStr (x + 18) ++
    "\" y=\"" ++ natStr (y + 54) ++ "\" fill=\"" ++ themeText ++
    "\" font-size=\"22\" font-weight=\"900\"\n              font-family=\"ui-sans-serif, system-ui\">" ++
    escapeXml (some it.value) ++ "</text>\n      "

/-- The input of renderGridStatsCard. -/
structure GridIn where
  title : String
  subtitleLeft : String
  totalText : String
  topText : String
  items : List GridItem
  grade : GradeOut

/-- renderGridStatsCard of github-cards.mjs (lines 194-280). -/
def renderGridStatsCard (inp : GridIn) : String :=
  let rowsN := (inp.items.length + (cols - 1)) / cols
  let height := headerH + rowsN * (boxH + cardGap) + 30
  let ringCx := width - padding - 46
  let ringCy := 58
  let boxes := joinNl (inp.items.mapIdx boxSvg)
  "<?xml version=\"1.0\" encoding=\"UTF-8\"?>\n<svg width=\"" ++ natStr width ++
    "\" height=\"" ++ natStr height ++ "\" viewBox=\"0 0 " ++ natStr width ++ " " ++
    natStr height ++
    "\"\n     xmlns=\"http://www.w3.org/2000/svg\" role=\"img\" aria-label=\"" ++
    escapeXml (some inp.title) ++ "\">\n  " ++ svgDefs ++ "\n  " ++
    baseCard width height ++ "\n\n  <text x=\"" ++ natStr padding ++
    "\" y=\"46\" fill=\"" ++ themeTitle ++
    "\" font-size=\"22\" font-weight=\"900\"\n        font-family=\"ui-sans-serif, system-ui\">" ++
    escapeXml (some inp.title) ++ "</text>\n\n  <text x=\"" ++ natStr padding ++
    "\" y=\"72\" fill=\"" ++ themeMuted ++
    "\" font-size=\"12\" font-weight=\"650\"\n        font-family=\"ui-sans-serif, system-ui\">" ++
    escapeXml (some inp.subtitleLeft) ++ "</text>\n\n  <text x=\"" ++ natStr padding ++
    "\" y=\"94\" fill=\"" ++ themeMuted ++
    "\" font-size=\"12\" font-weight=\"650\"\n        font-family=\"ui-sans-serif, system-ui\">" ++
    escapeXml (some inp.totalText) ++ "</text>\n\n  <text x=\"" ++
    natStr (width - padding - 110) ++
    "\" y=\"94\" text-anchor=\"end\" fill=\"" ++ themeMuted ++
    "\" font-size=\"12\" font-weight=\"650\"\n        font-family=\"ui-sans-serif, system-ui\">" ++
    escapeXml (some inp.topText) ++ "</text>\n\n  " ++
    ringSvg ringCx ringCy 26 7 inp.grade.pct (ringColor inp.grade.letter)
      inp.grade.letter.str ++ "\n\n  <line x1=\"" ++ natStr padding ++
    "\" y1=\"108\" x2=\"" ++ natStr (width - padding) ++ "\" y2=\"108\"\n        stroke=\"" ++
    themeStroke ++ "\" stroke-width=\"1\" opacity=\"0.75\" />\n\n  " ++ boxes ++
    "\n</svg>"

/-- Stable insertion into a list sorted by descending weight: the new
entry goes after every entry of at least its weight, as the stable JS
sort with comparator b[1] - a[1] orders equal weights. -/
def insertDesc (x : String × ℚ) : List (String × ℚ) → List (String × ℚ)
  | [] => [x]
  | y :: t => if x.2 ≤ y.2 then y :: insertDesc x t else x :: y :: t

/-- The stable descending-by-weight sort of line 472's sort call. -/
def sortDesc (l : List (String × ℚ)) : List (String × ℚ) :=
  l.foldl (fun acc x => insertDesc x acc) []

/-- Line 472: the langMap entries sorted by descending size and cut to the
first 10. -/
def langEntries (m : List (String × ℚ)) : List (String × ℚ) :=
  (sortDesc m).take 10

/-- Line 473: the reduce over the limited entries, with JS x or 1 turning a
zero sum into 1. -/
def langTotalSize (m : List (String × ℚ)) : ℚ :=
  let t := (langEntries m).foldl (fun acc e => acc + e.2) 0
  if t = 0 then 1 else t

/-- Lines 475-479: the language rows. -/
def langRowsOf (m : List (String × ℚ)) : List MetricRow :=
  (langEntries m).map fun e =>
    { name := e.1, valueText := humanBytes e.2, percent := e.2 / langTotalSize m * 100 }

/-- makeActivityRows of github-cards.mjs (lines 507-521), with JS
contribTotal or 1 turning a zero total into 1. -/
def makeActivityRows (commits prs issues reviews contribTotal : ℕ) : List MetricRow :=
  let total : ℚ := if contribTotal = 0 then 1 else contribTotal
  [("Commits", commits), ("Pull Requests", prs), ("Issues", issues),
      ("Reviews", reviews)].map
    fun r => { name := r.1, valueText := fmtNumber r.2, percent := (r.2 : ℚ) / total * 100 }

/-- Proleptic-Gregorian leap year test. -/
def isLeap (y : ℕ) : Bool := y % 4 == 0 && (y % 100 != 0 || y % 400 == 0)

/-- Days from the Unix epoch to January 1 of year y (y at least 1970). -/
def daysBefore (y : ℕ) : ℕ :=
  365 * (y - 1970) + ((List.range' 1970 (y - 1970)).filter isLeap).length

/-- Date.UTC (y, 0, 1): milliseconds at 00:00:00Z on January 1 of year y. -/
def jan1 (y : ℕ) : ℤ := (daysBefore y : ℤ) * 86400000

/-- FROM_YEAR of github-cards.mjs. -/
def fromYear : ℕ := 2021

/-- The loop years of fetchContribSince2021: FROM_YEAR up to endYear. -/
def windowsList (endYear : ℕ) : List ℕ := List.range' fromYear (endYear + 1 - fromYear)

/-- Line 384-387: the window's upper bound, now for the final year else
January 1 of the next year. -/
def winTo (endYear : ℕ) (now : ℤ) (y : ℕ) : ℤ := if y = endYear then now else jan1 (y + 1)

/-- The span of instants year y's window covers: the final window closed at
now, every earlier one half-open at the next window's start. -/
def winSet (endYear : ℕ) (now : ℤ) (y : ℕ) : Set ℤ :=
  if y = endYear then Set.Icc (jan1 y) now else Set.Ico (jan1 y) (jan1 (y + 1))

/-- The four per-window signal counts. -/
structure Contrib where
  commits : ℕ
  prs : ℕ
  issues : ℕ
  reviews : ℕ
deriving DecidableEq

/-- fetchContribSince2021 of github-cards.mjs (lines 359-399), abstracted
over the per-window fetch: the loop accumulating the four signals across
the year windows. -/
def fetchContribSince2021 (endYear : ℕ) (now : ℤ) (fetchWin : ℤ → ℤ → Contrib) :
    Contrib :=
  (windowsList endYear).foldl
    (fun acc y =>
      let c := fetchWin (jan1 y) (winTo endYear now y)
      ⟨acc.commits + c.commits, acc.prs + c.prs, acc.issues + c.issues,
        acc.reviews + c.reviews⟩)
    ⟨0, 0, 0, 0⟩

/-- A row with its caller-supplied texts emptied (its percent kept). -/
def blankRow (r : MetricRow) : MetricRow := { name := "", valueText := "", percent := r.percent }

/-- A bar-card input with every caller-supplied text emptied. -/
def blankBars (inp : BarsIn) : BarsIn :=
  { title := "", subtitleLeft := "", totalText := "", topText := "",
    rows := inp.rows.map blankRow }

end GH

namespace WK

/-- Line 32 of wakatime-cards.mjs: escapeXml (no null guard here). -/
def escapeXml (s : String) : String := ⟨escChain s.data⟩

def themeBg1 : String := "#141321"

def themeBg2 : String := "#1a1b27"

def themeTitle : String := "#ff4d6d"

def themeText : String := "#e4e4e7"

def themeMuted : String := "#9aa4bf"

def themeBarBg : String := "#2a2b3d"

def themeOther : String := "#ff4d6d"

def themeBars : List String :=
  ["#ff4d6d", "#f1fa8c", "#8be9fd", "#50fa7b", "#bd93f9", "#ffb86c", "#ff79c6"]

/-- fmtMinutes of wakatime-cards.mjs: mins is an integer; JS Math.floor of
the real quotient is Int.fdiv, the JS remainder is Int.tmod. -/
def fmtMinutes (mins : ℤ) : String :=
  let h := Int.fdiv mins 60
  let m := Int.tmod mins 60
  if h ≤ 0 then intStr m ++ "m"
  else if m = 0 then intStr h ++ "h"
  else intStr h ++ "h " ++ intStr m ++ "m"

/-- A raw stats entry as the time-tracking API returns it (fields that JS
may find missing are optional). -/
structure WkEntry where
  name : String
  text : Option String
  total_seconds : Option ℚ
  percent : Option ℚ
deriving DecidableEq

/-- A derived row of the time-tracking cards. -/
structure WkRow where
  name : String
  time : String
  percent : ℚ
  seconds : ℚ
deriving DecidableEq

/-- The arrow function of toRows (lines 66-71): JS x.text or the formatted
minutes (an empty text string is falsy and also falls back), percent and
seconds defaulted to 0. -/
def entryRow (x : WkEntry) : WkRow :=
  { name := x.name
    time :=
      match x.text with
      | some t => if t = "" then fmtMinutes (round (x.total_seconds.getD 0 / 60)) else t
      | none => fmtMinutes (round (x.total_seconds.getD 0 / 60))
    percent := x.percent.getD 0
    seconds := x.total_seconds.getD 0 }

/-- toRows of wakatime-cards.mjs (lines 63-72): slice to the limit, then
map; no sorting. -/
def toRows (l : List WkEntry) (limit : ℕ) : List WkRow :=
  (l.take limit).map entryRow

def width : ℕ := 900

def padding : ℕ := 28

def rowH : ℕ := 34

def headerH : ℕ := 112

def dividerY : ℕ := 88

def rankW : ℕ := 46

def nameX : ℕ := padding + rankW

def barX : ℕ := 380

def pctColW : ℕ := 82

def barW : ℕ := width - barX - padding - pctColW

def barH : ℕ := 10

/-- Line 112: rows named Other keep the theme's other color, all others
cycle through theme.bars by index. -/
def baseColor (i : ℕ) (name : String) : String :=
  if name = "Other" then themeOther else themeBars.getD (i % themeBars.length) ""

/-- Lines 115-116: Math.round (barW * Math.max 0 (Math.min 1 (percent / 100))). -/
def fillW (percent : ℚ) : ℤ := round ((barW : ℚ) * max 0 (min 1 (percent / 100)))

/-- One row of renderSvg (the arrow function of lines 108-147). -/
def rowSvg (i : ℕ) (r : WkRow) : String :=
  let y := headerH + i * rowH
  let color := baseColor i r.name
  let barOpacity := if r.name = "Other" then "0.85" else "1"
  let fw := fillW r.percent
  let rankText := "#" ++ natStr (i + 1)
  let dotCx := padding + 28
  let dotCy := y - 6
  let nameColor := if r.percent < 1 then "#cbd5e1" else themeText
  let nameOpacity := if r.percent < 1 then "0.92" else "1"
  "\n        <circle cx=\"" ++ natStr dotCx ++ "\" cy=\"" ++ natStr dotCy ++
    "\" r=\"5\" fill=\"" ++ color ++ "\" opacity=\"" ++ barOpacity ++
    "\"/>\n\n        <text x=\"" ++ natStr padding ++ "\" y=\"" ++ natStr y ++
    "\" fill=\"" ++ themeMuted ++
    "\" font-size=\"12\" font-weight=\"700\"\n              font-family=\"ui-sans-serif, system-ui\">" ++
    escapeXml rankText ++ "</text>\n\n        <text x=\"" ++ natStr nameX ++
    "\" y=\"" ++ natStr y ++ "\" fill=\"" ++ nameColor ++ "\" opacity=\"" ++
    nameOpacity ++
    "\" font-size=\"14\"\n              font-family=\"ui-sans-serif, system-ui, -apple-system, Segoe UI, Roboto\">" ++
    escapeXml r.name ++ "</text>\n\n        <text x=\"" ++ natStr (barX - 16) ++
    "\" y=\"" ++ natStr y ++ "\" text-anchor=\"end\" fill=\"" ++ themeMuted ++
    "\" font-size=\"13\"\n              font-family=\"ui-sans-serif, system-ui\">" ++
    escapeXml r.time ++ "</text>\n\n        <rect x=\"" ++ natStr barX ++ "\" y=\"" ++
    natStr (y - 12) ++ "\" rx=\"6\" ry=\"6\" width=\"" ++ natStr barW ++
    "\" height=\"" ++ natStr barH ++ "\" fill=\"" ++ themeBarBg ++
    "\" />\n\n        <rect x=\"" ++ natStr barX ++ "\" y=\"" ++ natStr (y - 12) ++
    "\" rx=\"6\" ry=\"6\" width=\"" ++ intStr fw ++ "\" height=\"" ++ natStr barH ++
    "\"\n              fill=\"" ++ color ++ "\" opacity=\"" ++ barOpacity ++
    "\" filter=\"url(#barGlow)\" />\n\n        <text x=\"" ++
    natStr (width - padding) ++ "\" y=\"" ++ natStr y ++
    "\" text-anchor=\"end\" fill=\"" ++ themeMuted ++
    "\" font-size=\"13\"\n              font-family=\"ui-sans-serif, system-ui\">" ++
    toFixed2 r.percent ++ "%</text>\n      "

/-- The input of renderSvg. -/
structure WkIn where
  icon : String
  title : String
  totalText : String
  topText : String
  rows : List WkRow
deriving DecidableEq

/-- renderSvg of wakatime-cards.mjs (lines 89-192). JS topText or the
empty string is the identity on strings, so topText embeds directly. -/
def renderSvg (inp : WkIn) : String :=
  let height := headerH + inp.rows.length * rowH + 30
  let svgRows := joinNl (inp.rows.mapIdx rowSvg)
  let headerTitle := inp.icon ++ " " ++ inp.title
  "<?xml version=\"1.0\" encoding=\"UTF-8\"?>\n<svg width=\"" ++ natStr width ++
    "\" height=\"" ++ natStr height ++ "\" viewBox=\"0 0 " ++ natStr width ++ " " ++
    natStr height ++
    "\" xmlns=\"http://www.w3.org/2000/svg\" role=\"img\" aria-label=\"" ++
    escapeXml inp.title ++
    "\">\n  <defs>\n    <linearGradient id=\"bgGrad\" x1=\"0\" y1=\"0\" x2=\"1\" y2=\"1\">\n      <stop offset=\"0%\" stop-color=\"" ++
    themeBg1 ++ "\"/>\n      <stop offset=\"100%\" stop-color=\"" ++ themeBg2 ++
    "\"/>\n    </linearGradient>\n\n    <filter id=\"barGlow\" x=\"-20%\" y=\"-50%\" width=\"140%\" height=\"200%\">\n      <feDropShadow dx=\"0\" dy=\"0\" stdDeviation=\"2\" flood-color=\"#ffffff\" flood-opacity=\"0.08\"/>\n      <feDropShadow dx=\"0\" dy=\"4\" stdDeviation=\"6\" flood-color=\"#000000\" flood-opacity=\"0.22\"/>\n    </filter>\n\n    <filter id=\"shadow\" x=\"-20%\" y=\"-20%\" width=\"140%\" height=\"140%\">\n      <feDropShadow dx=\"0\" dy=\"10\" stdDeviation=\"18\" flood-color=\"#000000\" flood-opacity=\"0.35\"/>\n    </filter>\n  </defs>\n\n  <rect x=\"0\" y=\"0\" width=\"" ++
    natStr width ++ "\" height=\"" ++ natStr height ++
    "\" rx=\"18\" ry=\"18\" fill=\"url(#bgGrad)\" filter=\"url(#shadow)\" />\n\n  <text x=\"" ++
    natStr padding ++ "\" y=\"46\" fill=\"" ++ themeTitle ++
    "\" font-size=\"22\" font-weight=\"900\"\n        font-family=\"ui-sans-serif, system-ui\">" ++
    escapeXml headerTitle ++ "</text>\n\n  <text x=\"" ++ natStr padding ++
    "\" y=\"72\" fill=\"" ++ themeMuted ++
    "\" font-size=\"12\" font-weight=\"600\"\n        font-family=\"ui-sans-serif, system-ui\">Updated hourly</text>\n\n  <text x=\"" ++
    natStr (width - padding) ++ "\" y=\"46\" text-anchor=\"end\" fill=\"" ++
    themeText ++
    "\" font-size=\"14\" font-weight=\"800\"\n        font-family=\"ui-sans-serif, system-ui\">" ++
    escapeXml inp.totalText ++ "</text>\n\n  <text x=\"" ++ natStr (width - padding) ++
    "\" y=\"72\" text-anchor=\"end\" fill=\"" ++ themeMuted ++
    "\" font-size=\"12\" font-weight=\"700\"\n        font-family=\"ui-sans-serif, system-ui\">" ++
    escapeXml inp.topText ++ "</text>\n\n  <line x1=\"" ++ natStr padding ++
    "\" y1=\"" ++ natStr dividerY ++ "\" x2=\"" ++ natStr (width - padding) ++
    "\" y2=\"" ++ natStr dividerY ++
    "\"\n        stroke=\"#334155\" stroke-width=\"1\" opacity=\"0.65\" />\n\n  " ++
    svgRows ++ "\n</svg>"

/-- A row with its caller-supplied texts emptied (numeric fields kept). -/
def blankRow (r : WkRow) : WkRow :=
  { name := "", time := "", percent := r.percent, seconds := r.seconds }

/-- A card input with every caller-supplied text emptied. -/
def blankIn (inp : WkIn) : WkIn :=
  { icon := "", title := "", totalText := "", topText := "",
    rows := inp.rows.map blankRow }

end WK

/-- Modelled from the spec: the normalization formula as the spec words it,
norm x = min 1 (log (1+x) / log (1+t)), with norm 0 when the target t is 0. -/
noncomputable def normSpec (x t : ℝ) : ℝ :=
  if t = 0 then 0 else min 1 (Real.log (1 + x) / Real.log (1 + t))

/-- Modelled from the spec: the weighted score over the six signals with
the fixed targets 4000, 200, 200, 250, 300, 60. -/
noncomputable def scoreSpec (c p i r s q : ℝ) : ℝ :=
  0.35 * normSpec c 4000 + 0.20 * normSpec p 200 + 0.10 * normSpec i 200 +
    0.10 * normSpec r 250 + 0.15 * normSpec s 300 + 0.10 * normSpec q 60

/-- The grade letters in ascending order of merit, D lowest. -/
def letterRank : Letter → ℕ
  | .D => 0
  | .C => 1
  | .B => 2
  | .A => 3
  | .S => 4

theorem replaceAll_cons (c : Char) (r : List Char) (x : Char) (l : List Char) :
    replaceAll (x :: l) c r = (if x = c then r else [x]) ++ replaceAll l c r := by
  simp [replaceAll]

theorem replaceAll_append (c : Char) (r : List Char) (l1 l2 : List Char) :
    replaceAll (l1 ++ l2) c r = replaceAll l1 c r ++ replaceAll l2 c r := by
  simp [replaceAll]

theorem escChain_append (l1 l2 : List Char) :
    escChain (l1 ++ l2) = escChain l1 ++ escChain l2 := by
  simp [escChain, replaceAll_append]

theorem escChain_single (x : Char) : escChain [x] = esc1 x := by
  by_cases h1 : x = '&'
  · subst h1; decide
  by_cases h2 : x = '<'
  · subst h2; decide
  by_cases h3 : x = '>'
  · subst h3; decide
  by_cases h4 : x = quotC
  · subst h4; decide
  by_cases h5 : x = aposC
  · subst h5; decide
  simp [escChain, replaceAll, esc1, h1, h2, h3, h4, h5]

theorem escChain_eq_flatMap (l : List Char) : escChain l = l.flatMap esc1 := by
  induction l with
  | nil => rfl
  | cons x t ih =>
    have hx : x :: t = [x] ++ t := rfl
    rw [hx, escChain_append, ih, escChain_single]
    simp

theorem mem_esc1_not_reserved (c a : Char) (h : c ∈ esc1 a) :
    c ≠ '<' ∧ c ≠ '>' ∧ c ≠ quotC ∧ c ≠ aposC := by
  unfold esc1 at h
  split_ifs at h with h1 h2 h3 h4 h5
  · have e : "&amp;".data = ['&', 'a', 'm', 'p', ';'] := rfl
    rw [e] at h; simp at h
    rcases h with rfl | rfl | rfl | rfl | rfl <;> decide
  · have e : "&lt;".data = ['&', 'l', 't', ';'] := rfl
    rw [e] at h; simp at h
    rcases h with rfl | rfl | rfl | rfl <;> decide
  · have e : "&gt;".data = ['&', 'g', 't', ';'] := rfl
    rw [e] at h; simp at h
    rcases h with rfl | rfl | rfl | rfl <;> decide
  · have e : "&quot;".data = ['&', 'q', 'u', 'o', 't', ';'] := rfl
    rw [e] at h; simp at h
    rcases h with rfl | rfl | rfl | rfl | rfl | rfl <;> decide
  · have e : "&apos;".data = ['&', 'a', 'p', 'o', 's', ';'] := rfl
    rw [e] at h; simp at h
    rcases h with rfl | rfl | rfl | rfl | rfl | rfl <;> decide
  · simp at h; subst h; exact ⟨h2, h3, h4, h5⟩

theorem count_escChain_zero (c : Char)
    (hc : c = '<' ∨ c = '>' ∨ c = quotC ∨ c = aposC) (l : List Char) :
    (escChain l).count c = 0 := by
  rw [escChain_eq_flatMap, List.count_eq_zero]
  intro hmem
  rcases List.mem_flatMap.mp hmem with ⟨a, _, ha⟩
  have h4 := mem_esc1_not_reserved c a ha
  rcases hc with rfl | rfl | rfl | rfl <;> tauto

theorem countCh_append (c : Char) (a b : String) :
    countCh c (a ++ b) = countCh c a + countCh c b := by
  simp [countCh, String.data_append, List.count_append]

theorem countCh_escGH (c : Char)
    (hc : c = '<' ∨ c = '>' ∨ c = quotC ∨ c = aposC) (s : Option String) :
    countCh c (GH.escapeXml s) = 0 := by
  simpa [countCh, GH.escapeXml] using count_escChain_zero c hc (s.getD "").data

theorem countCh_escWK (c : Char)
    (hc : c = '<' ∨ c = '>' ∨ c = quotC ∨ c = aposC) (s : String) :
    countCh c (WK.escapeXml s) = 0 := by
  simpa [countCh, WK.escapeXml] using count_escChain_zero c hc s.data

theorem reserved_ne_digitCh (c : Char)
    (hc : c = '<' ∨ c = '>' ∨ c = quotC ∨ c = aposC) (d : ℕ) (hd : d < 10) :
    c ≠ digitCh d := by
  interval_cases d <;> rcases hc with rfl | rfl | rfl | rfl <;> decide

theorem reserved_not_in_natCharsAux (c : Char)
    (hc : c = '<' ∨ c = '>' ∨ c = quotC ∨ c = aposC) :
    ∀ fuel n : ℕ, c ∉ natCharsAux fuel n := by
  intro fuel
  induction fuel with
  | zero =>
    intro n h
    simp only [natCharsAux, List.mem_singleton] at h
    exact reserved_ne_digitCh c hc (n % 10) (Nat.mod_lt _ (by omega)) h
  | succ fuel ih =>
    intro n h
    simp only [natCharsAux] at h
    split at h
    · simp only [List.mem_singleton] at h
      rename_i hn
      exact reserved_ne_digitCh c hc n hn h
    · rcases List.mem_append.mp h with h1 | h1
      · exact ih (n / 10) h1
      · simp only [List.mem_singleton] at h1
        exact reserved_ne_digitCh c hc (n % 10) (Nat.mod_lt _ (by omega)) h1

theorem reserved_not_in_natChars (c : Char)
    (hc : c = '<' ∨ c = '>' ∨ c = quotC ∨ c = aposC) (n : ℕ) :
    c ∉ natChars n :=
  reserved_not_in_natCharsAux c hc n n

theorem countCh_natStr (c : Char)
    (hc : c = '<' ∨ c = '>' ∨ c = quotC ∨ c = aposC) (n : ℕ) :
    countCh c (natStr n) = 0 := by
  simp [countCh, natStr, List.count_eq_zero]
  exact reserved_not_in_natChars c hc n

theorem countCh_intStr (c : Char)
    (hc : c = '<' ∨ c = '>' ∨ c = quotC ∨ c = aposC) (i : ℤ) :
    countCh c (intStr i) = 0 := by
  unfold intStr
  split
  · rw [countCh_append, countCh_natStr c hc]
    have hm : countCh c "-" = 0 := by rcases hc with rfl | rfl | rfl | rfl <;> decide
    omega
  · exact countCh_natStr c hc _

theorem countCh_twoDigits (c : Char)
    (hc : c = '<' ∨ c = '>' ∨ c = quotC ∨ c = aposC) (k : ℕ) :
    countCh c (twoDigits k) = 0 := by
  unfold twoDigits
  split
  · rw [countCh_append, countCh_natStr c hc]
    have h0 : countCh c "0" = 0 := by rcases hc with rfl | rfl | rfl | rfl <;> decide
    omega
  · exact countCh_natStr c hc _

theorem countCh_toFixed2 (c : Char)
    (hc : c = '<' ∨ c = '>' ∨ c = quotC ∨ c = aposC) (q : ℚ) :
    countCh c (toFixed2 q) = 0 := by
  have hdot : countCh c "." = 0 := by rcases hc with rfl | rfl | rfl | rfl <;> decide
  have hm : countCh c "-" = 0 := by rcases hc with rfl | rfl | rfl | rfl <;> decide
  unfold toFixed2 fixed2Core
  split <;>
    simp [countCh_append, countCh_natStr c hc, countCh_twoDigits c hc, hdot, hm]

theorem sum_map_const_add (k : ℕ) (f : String → ℕ) (t : List String) :
    (t.map fun x => k + f x).sum = t.length * k + (t.map f).sum := by
  induction t with
  | nil => simp
  | cons a s ih => simp [ih]; ring

theorem countCh_foldl_nl (c : Char) (t : List String) (a : String) :
    countCh c (t.foldl (fun acc x => acc ++ "\n" ++ x) a) =
      countCh c a + (t.map fun x => countCh c "\n" + countCh c x).sum := by
  induction t generalizing a with
  | nil => simp
  | cons x ts ih => simp [ih, countCh_append]; ring

theorem countCh_joinNl (c : Char) (l : List String) :
    countCh c (joinNl l) =
      (l.map (countCh c)).sum + (l.length - 1) * countCh c "\n" := by
  cases l with
  | nil => simp [joinNl, countCh]
  | cons a t =>
    simp only [joinNl, countCh_foldl_nl, sum_map_const_add, List.map_cons,
      List.sum_cons, List.length_cons, Nat.add_sub_cancel]
    omega

theorem countCh_joinNl_congr (c : Char) (l l2 : List String)
    (h : l.map (countCh c) = l2.map (countCh c)) :
    countCh c (joinNl l) = countCh c (joinNl l2) := by
  have hlen : l.length = l2.length := by
    have := congrArg List.length h
    simpa using this
  rw [countCh_joinNl, countCh_joinNl, h, hlen]

theorem countCh_rowSvgGH_blank (c : Char)
    (hc : c = '<' ∨ c = '>' ∨ c = quotC ∨ c = aposC) (i : ℕ) (r : MetricRow) :
    countCh c (GH.rowSvg i (GH.blankRow r)) = countCh c (GH.rowSvg i r) := by
  simp only [GH.rowSvg, GH.blankRow]
  simp [countCh_append, countCh_escGH c hc, countCh_natStr c hc, countCh_intStr c hc,
    countCh_toFixed2 c hc]

theorem countCh_wkBaseColor (c : Char)
    (hc : c = '<' ∨ c = '>' ∨ c = quotC ∨ c = aposC) (i : ℕ) (name : String) :
    countCh c (WK.baseColor i name) = 0 := by
  unfold WK.baseColor
  split
  · rcases hc with rfl | rfl | rfl | rfl <;> decide
  · have hlen : WK.themeBars.length = 7 := by decide
    rw [hlen]
    have h7 : i % 7 < 7 := Nat.mod_lt _ (by omega)
    set k := i % 7 with hk
    interval_cases k <;> rcases hc with rfl | rfl | rfl | rfl <;> decide

theorem countCh_rowSvgWK_blank (c : Char)
    (hc : c = '<' ∨ c = '>' ∨ c = quotC ∨ c = aposC) (i : ℕ) (r : WK.WkRow) :
    countCh c (WK.rowSvg i (WK.blankRow r)) = countCh c (WK.rowSvg i r) := by
  have h1 : countCh c "1" = 0 := by rcases hc with rfl | rfl | rfl | rfl <;> decide
  have h085 : countCh c "0.85" = 0 := by rcases hc with rfl | rfl | rfl | rfl <;> decide
  simp only [WK.rowSvg, WK.blankRow]
  by_cases hOther : r.name = "Other" <;>
    simp [hOther, countCh_append, countCh_escWK c hc, countCh_natStr c hc,
      countCh_intStr c hc, countCh_toFixed2 c hc, countCh_wkBaseColor c hc, h1, h085]

theorem countCh_renderBars_blank (c : Char)
    (hc : c = '<' ∨ c = '>' ∨ c = quotC ∨ c = aposC) (inp : GH.BarsIn) :
    countCh c (GH.renderBarsCard (GH.blankBars inp)) =
      countCh c (GH.renderBarsCard inp) := by
  have hrows : countCh c (joinNl ((inp.rows.map GH.blankRow).mapIdx GH.rowSvg)) =
      countCh c (joinNl (inp.rows.mapIdx GH.rowSvg)) := by
    apply countCh_joinNl_congr
    rw [List.mapIdx_eq_enum_map, List.mapIdx_eq_enum_map, List.enum_map]
    rw [List.map_map, List.map_map, List.map_map]
    apply List.map_congr_left
    intro p _
    cases p with
    | mk i r =>
      simpa [Function.uncurry, Prod.map] using countCh_rowSvgGH_blank c hc i r
  simp only [GH.renderBarsCard, GH.blankBars]
  simp [countCh_append, countCh_escGH c hc, countCh_natStr c hc, hrows,
    List.length_map]

theorem countCh_renderSvg_blank (c : Char)
    (hc : c = '<' ∨ c = '>' ∨ c = quotC ∨ c = aposC) (inp : WK.WkIn) :
    countCh c (WK.renderSvg (WK.blankIn inp)) = countCh c (WK.renderSvg inp) := by
  have hrows : countCh c (joinNl ((inp.rows.map WK.blankRow).mapIdx WK.rowSvg)) =
      countCh c (joinNl (inp.rows.mapIdx WK.rowSvg)) := by
    apply countCh_joinNl_congr
    rw [List.mapIdx_eq_enum_map, List.mapIdx_eq_enum_map, List.enum_map]
    rw [List.map_map, List.map_map, List.map_map]
    apply List.map_congr_left
    intro p _
    cases p with
    | mk i r =>
      simpa [Function.uncurry, Prod.map] using countCh_rowSvgWK_blank c hc i r
  simp only [WK.renderSvg, WK.blankIn]
  simp [countCh_append, countCh_escWK c hc, countCh_natStr c hc, hrows,
    List.length_map]

theorem round_clamp_bounds (w : ℕ) (p : ℚ) :
    0 ≤ round ((w : ℚ) * max 0 (min 1 (p / 100))) ∧
    round ((w : ℚ) * max 0 (min 1 (p / 100))) ≤ (w : ℤ) := by
  set x := max 0 (min 1 (p / 100)) with hx
  have hx0 : 0 ≤ x := le_max_left _ _
  have hx1 : x ≤ 1 := max_le (by norm_num) (min_le_left _ _)
  have hw0 : (0 : ℚ) ≤ (w : ℚ) := Nat.cast_nonneg w
  have h0 : (0 : ℚ) ≤ (w : ℚ) * x := mul_nonneg hw0 hx0
  have h1 : (w : ℚ) * x ≤ (w : ℚ) := by nlinarith
  have hwq : (⌊(w : ℚ) + 1 / 2⌋ : ℤ) = (w : ℤ) := by
    rw [← round_eq, round_natCast]
  constructor
  · have hm := Int.floor_mono (by linarith : (0 : ℚ) + 1 / 2 ≤ (w : ℚ) * x + 1 / 2)
    rw [round_eq]
    have h12 : (⌊(0 : ℚ) + 1 / 2⌋ : ℤ) = 0 := by norm_num
    omega
  · have hm := Int.floor_mono (by linarith : (w : ℚ) * x + 1 / 2 ≤ (w : ℚ) + 1 / 2)
    rw [round_eq]
    omega

/-- C3: the three render functions are deterministic: two invocations on
identical input values produce byte-identical documents. The embedded
render functions depend on nothing besides the input value (no clock, no
randomness), so equal inputs give equal output strings. -/
theorem render_deterministic :
    (∀ a b : GH.BarsIn, a = b → GH.renderBarsCard a = GH.renderBarsCard b) ∧
    (∀ a b : GH.GridIn, a = b → GH.renderGridStatsCard a = GH.renderGridStatsCard b) ∧
    (∀ a b : WK.WkIn, a = b → WK.renderSvg a = WK.renderSvg b) :=
  ⟨fun _ _ h => by rw [h], fun _ _ h => by rw [h], fun _ _ h => by rw [h]⟩

/-- Witness for C3: the determinism theorem applied at concrete inputs. -/
theorem render_deterministic_witness :
    GH.renderBarsCard ⟨"t", "s", "tot", "top", [⟨"A", "1 B", 50⟩]⟩ =
      GH.renderBarsCard ⟨"t", "s", "tot", "top", [⟨"A", "1 B", 50⟩]⟩ ∧
    GH.renderGridStatsCard ⟨"t", "s", "tot", "top", [⟨"L", "V"⟩], ⟨0, 50, .C⟩⟩ =
      GH.renderGridStatsCard ⟨"t", "s", "tot", "top", [⟨"L", "V"⟩], ⟨0, 50, .C⟩⟩ ∧
    WK.renderSvg ⟨"i", "t", "tot", "top", [⟨"A", "1m", 50, 60⟩]⟩ =
      WK.renderSvg ⟨"i", "t", "tot", "top", [⟨"A", "1m", 50, 60⟩]⟩ :=
  ⟨render_deterministic.1 _ _ rfl, render_deterministic.2.1 _ _ rfl,
    render_deterministic.2.2 _ _ rfl⟩

/-- C7: in both bar pipelines the filled-bar width of a row is
round (barW * clamp (percent / 100) to [0, 1]) and therefore always lies
between 0 and the background bar width, also for percent values outside
[0, 100]. -/
theorem fill_width_clamped (p : ℚ) :
    GH.fillW p = round ((GH.barW : ℚ) * max 0 (min 1 (p / 100))) ∧
    0 ≤ GH.fillW p ∧ GH.fillW p ≤ (GH.barW : ℤ) ∧
    WK.fillW p = round ((WK.barW : ℚ) * max 0 (min 1 (p / 100))) ∧
    0 ≤ WK.fillW p ∧ WK.fillW p ≤ (WK.barW : ℤ) := by
  refine ⟨rfl, ?_, ?_, rfl, ?_, ?_⟩
  · exact (round_clamp_bounds GH.barW p).1
  · exact (round_clamp_bounds GH.barW p).2
  · exact (round_clamp_bounds WK.barW p).1
  · exact (round_clamp_bounds WK.barW p).2

/-- C9 counterexample: in the time-tracking pipeline a row named Other at
index 1 is colored with the dedicated other-color, not with the theme's
accent list entry at index 1 mod length as the claim states. -/
theorem other_color_cex :
    WK.baseColor 1 "Other" = "#ff4d6d" ∧
    WK.themeBars.getD (1 % WK.themeBars.length) "" = "#f1fa8c" ∧
    WK.baseColor 1 "Other" ≠ WK.themeBars.getD (1 % WK.themeBars.length) "" := by
  refine ⟨rfl, rfl, ?_⟩
  decide

/-- C9 amended: in both pipelines the dot and the filled bar of the row at
index i take the theme's accent list entry at i mod the list length, by
index alone, except that the time-tracking pipeline colors a row named
Other with the theme's dedicated other-color regardless of index. The
color cycles with period the accent list length. -/
theorem row_color_cycles :
    (∀ i, GH.rowColor i = GH.themeBars.getD (i % GH.themeBars.length) "") ∧
    (∀ i, GH.rowColor (i + GH.themeBars.length) = GH.rowColor i) ∧
    (∀ i name, name ≠ "Other" →
      WK.baseColor i name = WK.themeBars.getD (i % WK.themeBars.length) "") ∧
    (∀ i name, name ≠ "Other" →
      WK.baseColor (i + WK.themeBars.length) name = WK.baseColor i name) ∧
    (∀ i, WK.baseColor i "Other" = WK.themeOther) := by
  refine ⟨fun i => rfl, fun i => ?_, fun i name h => ?_, fun i name h => ?_, fun i => ?_⟩
  · simp [GH.rowColor, Nat.add_mod_right]
  · simp [WK.baseColor, h]
  · simp [WK.baseColor, h, Nat.add_mod_right]
  · simp [WK.baseColor]

/-- Witness for C9: the amended color rule applied at index 1 for a row
not named Other, and at index 0 for a row named Other. -/
theorem row_color_cycles_witness :
    WK.baseColor 1 "Python" = WK.themeBars.getD (1 % WK.themeBars.length) "" ∧
    WK.baseColor 0 "Other" = WK.themeOther :=
  ⟨row_color_cycles.2.2.1 1 "Python" (by decide), row_color_cycles.2.2.2.2 0⟩

/-- C10: the GitHub pipeline's escapeXml coalesces a missing (null or
undefined) text to the empty string, so nothing - in particular not the
words null or undefined - is embedded for it. -/
theorem escapeXml_missing_empty :
    GH.escapeXml none = "" ∧
    ¬ List.IsInfix "null".data (GH.escapeXml none).data ∧
    ¬ List.IsInfix "undefined".data (GH.escapeXml none).data := by
  have hd : (GH.escapeXml none).data = [] := rfl
  refine ⟨rfl, ?_, ?_⟩ <;> rintro ⟨s, t, h⟩ <;> rw [hd] at h <;> simp at h

/-- C2: the chained five replaces of escapeXml equal the spec's one-pass
per-character entity substitution, each reserved character maps to exactly
its entity, no raw lt, gt, quote or apostrophe survives escaping in either
pipeline, the sample name escapes to the expected entity string, and at
document level the number of raw occurrences of each of those characters
in a rendered bar card is exactly what the fixed markup contributes: it
does not change when every caller-supplied text is replaced by the empty
string. -/
theorem escaping_complete :
    (∀ l : List Char, escChain l = l.flatMap esc1) ∧
    (esc1 '&' = "&amp;".data ∧ esc1 '<' = "&lt;".data ∧ esc1 '>' = "&gt;".data ∧
      esc1 quotC = "&quot;".data ∧ esc1 aposC = "&apos;".data) ∧
    (∀ s : String, ∀ c ∈ (GH.escapeXml (some s)).data,
      c ≠ '<' ∧ c ≠ '>' ∧ c ≠ quotC ∧ c ≠ aposC) ∧
    (∀ s : String, ∀ c ∈ (WK.escapeXml s).data,
      c ≠ '<' ∧ c ≠ '>' ∧ c ≠ quotC ∧ c ≠ aposC) ∧
    (GH.escapeXml (some ⟨['<', 's', 'c', 'r', 'i', 'p', 't', '>', '&', quotC, aposC]⟩) =
      "&lt;script&gt;&amp;&quot;&apos;") ∧
    (∀ inp : GH.BarsIn, ∀ c, (c = '<' ∨ c = '>' ∨ c = quotC ∨ c = aposC) →
      countCh c (GH.renderBarsCard (GH.blankBars inp)) =
        countCh c (GH.renderBarsCard inp)) ∧
    (∀ inp : WK.WkIn, ∀ c, (c = '<' ∨ c = '>' ∨ c = quotC ∨ c = aposC) →
      countCh c (WK.renderSvg (WK.blankIn inp)) = countCh c (WK.renderSvg inp)) := by
  refine ⟨escChain_eq_flatMap, ⟨by decide, by decide, by decide, by decide, by decide⟩,
    ?_, ?_, by decide, fun inp c hc => countCh_renderBars_blank c hc inp,
    fun inp c hc => countCh_renderSvg_blank c hc inp⟩
  · intro s c hmem
    have hm : c ∈ escChain s.data := hmem
    rw [escChain_eq_flatMap] at hm
    rcases List.mem_flatMap.mp hm with ⟨a, _, ha⟩
    exact mem_esc1_not_reserved c a ha
  · intro s c hmem
    have hm : c ∈ escChain s.data := hmem
    rw [escChain_eq_flatMap] at hm
    rcases List.mem_flatMap.mp hm with ⟨a, _, ha⟩
    exact mem_esc1_not_reserved c a ha

/-- Witness for C2: the document-level count identity applied to a bar
card whose title and row name carry raw markup characters. -/
theorem escaping_complete_witness :
    countCh '<' (GH.renderBarsCard (GH.blankBars ⟨"t<", "s", "tot", "top",
      [⟨"<script>", "1 B", 50⟩]⟩)) =
      countCh '<' (GH.renderBarsCard ⟨"t<", "s", "tot", "top",
        [⟨"<script>", "1 B", 50⟩]⟩) :=
  escaping_complete.2.2.2.2.2.1 ⟨"t<", "s", "tot", "top", [⟨"<script>", "1 B", 50⟩]⟩
    '<' (Or.inl rfl)

theorem mem_insertDesc (x z : String × ℚ) (l : List (String × ℚ)) :
    z ∈ GH.insertDesc x l ↔ z = x ∨ z ∈ l := by
  induction l with
  | nil => simp [GH.insertDesc]
  | cons y t ih =>
    simp only [GH.insertDesc]
    split <;> (first | (simp [ih]; tauto) | simp [ih])

theorem insertDesc_sorted (x : String × ℚ) (l : List (String × ℚ))
    (h : List.Pairwise (fun a b : String × ℚ => b.2 ≤ a.2) l) :
    List.Pairwise (fun a b : String × ℚ => b.2 ≤ a.2) (GH.insertDesc x l) := by
  induction l with
  | nil => simp [GH.insertDesc]
  | cons y t ih =>
    rcases List.pairwise_cons.mp h with ⟨hy, ht⟩
    simp only [GH.insertDesc]
    split
    · rename_i hxy
      refine List.pairwise_cons.mpr ⟨?_, ih ht⟩
      intro z hz
      rcases (mem_insertDesc x z t).mp hz with rfl | hz2
      · exact hxy
      · exact hy z hz2
    · rename_i hxy
      push_neg at hxy
      refine List.pairwise_cons.mpr ⟨?_, h⟩
      intro z hz
      rcases List.mem_cons.mp hz with rfl | hz2
      · exact hxy.le
      · exact le_trans (hy z hz2) hxy.le

theorem insertDesc_perm (x : String × ℚ) (l : List (String × ℚ)) :
    List.Perm (GH.insertDesc x l) (x :: l) := by
  induction l with
  | nil => simp [GH.insertDesc]
  | cons y t ih =>
    simp only [GH.insertDesc]
    split
    · exact (List.Perm.cons y ih).trans (List.Perm.swap x y t)
    · exact List.Perm.refl _

theorem sortDesc_foldl_perm (l acc : List (String × ℚ)) :
    List.Perm (l.foldl (fun acc x => GH.insertDesc x acc) acc) (l ++ acc) := by
  induction l generalizing acc with
  | nil => simp
  | cons x t ih =>
    simp only [List.foldl_cons, List.cons_append]
    exact ((ih _).trans
      (List.Perm.append_left t (insertDesc_perm x acc))).trans List.perm_middle

theorem sortDesc_perm (l : List (String × ℚ)) : List.Perm (GH.sortDesc l) l := by
  simpa using sortDesc_foldl_perm l []

theorem sortDesc_foldl_sorted (l acc : List (String × ℚ))
    (h : List.Pairwise (fun a b : String × ℚ => b.2 ≤ a.2) acc) :
    List.Pairwise (fun a b : String × ℚ => b.2 ≤ a.2)
      (l.foldl (fun acc x => GH.insertDesc x acc) acc) := by
  induction l generalizing acc with
  | nil => exact h
  | cons x t ih => exact ih _ (insertDesc_sorted x acc h)

theorem langEntries_sorted (m : List (String × ℚ)) :
    List.Pairwise (fun a b : String × ℚ => b.2 ≤ a.2) (GH.langEntries m) :=
  List.Pairwise.sublist (List.take_sublist _ _)
    (sortDesc_foldl_sorted m [] (List.Pairwise.nil))

/-- C5 counterexample: the time-tracking row derivation does not sort; two
entries with ascending seconds stay in input order, so the derived rows
are not sorted by descending weight as the claim states. -/
theorem toRows_unsorted_cex :
    ¬ List.Pairwise (fun a b : WK.WkRow => b.seconds ≤ a.seconds)
      (WK.toRows [⟨"A", some "1m", some 60, some 10⟩,
        ⟨"B", some "2m", some 120, some 20⟩] 10) := by
  intro h
  have h2 : WK.toRows [⟨"A", some "1m", some 60, some 10⟩,
      ⟨"B", some "2m", some 120, some 20⟩] 10 =
      [⟨"A", "1m", 10, 60⟩, ⟨"B", "2m", 20, 120⟩] := by decide
  rw [h2] at h
  rcases List.pairwise_cons.mp h with ⟨hab, _⟩
  have h3 := hab _ (List.mem_singleton.mpr rfl)
  norm_num at h3

/-- C5 amended: both derivations cap the row list at 10; the github
language derivation sorts by descending weight, while the time-tracking
derivation does not sort - it keeps the first 10 entries in the source
list's own order (the API supplies them pre-sorted). -/
theorem rows_bounded_ordered :
    (∀ m : List (String × ℚ), (GH.langRowsOf m).length ≤ 10) ∧
    (∀ m : List (String × ℚ),
      List.Pairwise (fun a b : String × ℚ => b.2 ≤ a.2) (GH.langEntries m)) ∧
    (∀ l : List WK.WkEntry, (WK.toRows l 10).length ≤ 10) ∧
    (∀ l : List WK.WkEntry,
      (WK.toRows l 10).map (fun r => r.name) = (l.take 10).map (fun x => x.name)) := by
  refine ⟨?_, langEntries_sorted, ?_, ?_⟩
  · intro m
    simp [GH.langRowsOf, GH.langEntries, List.length_take]
  · intro l
    simp [WK.toRows, List.length_take]
  · intro l
    simp only [WK.toRows, List.map_map]
    rfl

/-- C4 counterexample: with 11 categories of equal weight 100, the github
language rows divide by the limited top-10 sum 1000 and report 10 percent
each, not 100 * 100 / 1100 as the full-set denominator of the claim would
give. -/
theorem lang_denominator_cex :
    ((GH.langRowsOf [("L1", 100), ("L2", 100), ("L3", 100), ("L4", 100), ("L5", 100),
        ("L6", 100), ("L7", 100), ("L8", 100), ("L9", 100), ("L10", 100),
        ("L11", 100)]).map (fun r => r.percent) =
      [10, 10, 10, 10, 10, 10, 10, 10, 10, 10]) ∧
    (10 : ℚ) ≠ 100 * 100 / 1100 := by
  constructor
  · norm_num [GH.langRowsOf, GH.langEntries, GH.sortDesc, GH.insertDesc,
      GH.langTotalSize]
  · norm_num

/-- C4 amended: each github language row's percent is 100 * w / totalWeight
with totalWeight the sum over the limited top-10 list (1 substituted when
that sum is 0) - the github pipeline, a closed category set with no other
bucket, uses the limited sum, not the full-set sum; and each time-tracking
row's percent is taken verbatim from the source entry's percent field
(defaulted to 0), not recomputed from weights at all. -/
theorem percent_denominators :
    (∀ m : List (String × ℚ), ∀ r ∈ GH.langRowsOf m,
      ∃ w, ((r.name, w) ∈ GH.langEntries m ∧
        r.percent = 100 * w / GH.langTotalSize m)) ∧
    (∀ l : List WK.WkEntry,
      (WK.toRows l 10).map (fun r => r.percent) =
        (l.take 10).map (fun x => x.percent.getD 0)) := by
  constructor
  · intro m r hr
    simp only [GH.langRowsOf, List.mem_map] at hr
    rcases hr with ⟨e, he, rfl⟩
    exact ⟨e.2, by simpa using he, by ring⟩
  · intro l
    simp only [WK.toRows, List.map_map]
    rfl

/-- Witness for C4: the amended denominator rule applied to a
one-language mapping. -/
theorem percent_denominators_witness :
    ∃ w, (("A", w) ∈ GH.langEntries [("A", 300)] ∧
      (300 : ℚ) / GH.langTotalSize [("A", 300)] * 100 =
        100 * w / GH.langTotalSize [("A", 300)]) :=
  percent_denominators.1 [("A", 300)]
    ⟨"A", GH.humanBytes 300, 300 / GH.langTotalSize [("A", 300)] * 100⟩
    (by simp [GH.langRowsOf, GH.langEntries, GH.sortDesc, GH.insertDesc])

/-- C6: with a zero total weight - every category weight 0, or all four
activity signals 0 - every derived row reports percent 0: the JS fallback
replaces the zero denominator by 1, and the rational model is total, so
nothing like NaN arises and rendering stays well defined. -/
theorem zero_total_percents :
    (∀ m : List (String × ℚ), (∀ e ∈ m, e.2 = 0) →
      ∀ r ∈ GH.langRowsOf m, r.percent = 0) ∧
    (∀ t : ℕ, ∀ r ∈ GH.makeActivityRows 0 0 0 0 t, r.percent = 0) := by
  constructor
  · intro m hm r hr
    simp only [GH.langRowsOf, List.mem_map] at hr
    rcases hr with ⟨e, he, rfl⟩
    have he2 : e ∈ m := by
      have h1 : e ∈ GH.sortDesc m :=
        List.take_subset _ _ (by simpa [GH.langEntries] using he)
      exact (sortDesc_perm m).mem_iff.mp h1
    simp [hm e he2]
  · intro t r hr
    simp only [GH.makeActivityRows, List.mem_map] at hr
    rcases hr with ⟨e, he, rfl⟩
    simp only [List.mem_cons, List.not_mem_nil, or_false] at he
    rcases he with rfl | rfl | rfl | rfl <;> simp

/-- Witness for C6: the zero-weight rule applied to a one-category mapping
of weight 0. -/
theorem zero_total_percents_witness :
    (⟨"A", GH.humanBytes 0, 0 / GH.langTotalSize [("A", 0)] * 100⟩ : MetricRow).percent
      = 0 :=
  zero_total_percents.1 [("A", 0)]
    (by rintro e he; simp only [List.mem_singleton] at he; subst he; rfl)
    ⟨"A", GH.humanBytes 0, 0 / GH.langTotalSize [("A", 0)] * 100⟩
    (by simp [GH.langRowsOf, GH.langEntries, GH.sortDesc, GH.insertDesc])

theorem norm_natCast_eq (x : ℕ) (t : ℝ) (ht : 0 < t) :
    GH.norm (x : ℝ) t = normSpec (x : ℝ) t := by
  unfold GH.norm normSpec GH.L
  have hmx : max (0 : ℝ) (x : ℝ) = (x : ℝ) := max_eq_right (Nat.cast_nonneg x)
  have hmt : max (0 : ℝ) t = t := max_eq_right ht.le
  rw [hmx, hmt]
  have hlog : Real.log (1 + t) ≠ 0 := by
    rw [Ne, Real.log_eq_zero]
    push_neg
    refine ⟨by linarith, by linarith, by linarith⟩
  rw [if_neg hlog, if_neg ht.ne']

/-- C1: computeGrade realizes the spec's formula: the score is the fixed
weighted sum of min 1 (log (1+x) / log (1+t)) normalizations against the
targets 4000, 200, 200, 250, 300, 60 (the guard making a zero target
contribute 0), pct is round (score * 100), and the letter is the step
function of pct that is exact at the boundary values and monotone
non-decreasing in pct. -/
theorem computeGrade_formula :
    (∀ c p i r s q : ℕ,
      (GH.computeGrade ⟨c, p, i, r, s, q⟩).score = scoreSpec c p i r s q ∧
      (GH.computeGrade ⟨c, p, i, r, s, q⟩).pct =
        round ((GH.computeGrade ⟨c, p, i, r, s, q⟩).score * 100) ∧
      (GH.computeGrade ⟨c, p, i, r, s, q⟩).letter =
        GH.letterOf (GH.computeGrade ⟨c, p, i, r, s, q⟩).pct) ∧
    (GH.letterOf 85 = .S ∧ GH.letterOf 84 = .A ∧ GH.letterOf 70 = .A ∧
      GH.letterOf 69 = .B ∧ GH.letterOf 55 = .B ∧ GH.letterOf 54 = .C ∧
      GH.letterOf 40 = .C ∧ GH.letterOf 39 = .D) ∧
    (∀ a b : ℤ, a ≤ b → letterRank (GH.letterOf a) ≤ letterRank (GH.letterOf b)) := by
  refine ⟨?_, ⟨by decide, by decide, by decide, by decide, by decide, by decide,
    by decide, by decide⟩, ?_⟩
  · intro c p i r s q
    refine ⟨?_, rfl, rfl⟩
    simp only [GH.computeGrade, scoreSpec, GH.constOrZero]
    rw [norm_natCast_eq c 4000 (by norm_num), norm_natCast_eq p 200 (by norm_num),
      norm_natCast_eq i 200 (by norm_num), norm_natCast_eq r 250 (by norm_num),
      norm_natCast_eq s 300 (by norm_num), norm_natCast_eq q 60 (by norm_num)]
  · intro a b hab
    unfold GH.letterOf
    split_ifs <;> simp [letterRank] <;> omega

/-- Witness for C1: monotonicity of the letter applied at pct 10 and 90. -/
theorem computeGrade_formula_witness :
    letterRank (GH.letterOf 10) ≤ letterRank (GH.letterOf 90) :=
  computeGrade_formula.2.2 10 90 (by decide)

theorem daysBefore_succ (y : ℕ) (h : 1970 ≤ y) :
    GH.daysBefore (y + 1) =
      GH.daysBefore y + 365 + (if GH.isLeap y then 1 else 0) := by
  unfold GH.daysBefore
  have h1 : y + 1 - 1970 = (y - 1970) + 1 := by omega
  rw [h1, List.range'_concat]
  have h2 : 1970 + 1 * (y - 1970) = y := by omega
  rw [h2, List.filter_append]
  simp only [List.length_append]
  cases hy : GH.isLeap y <;> simp [List.filter_cons, hy] <;> omega

theorem jan1_lt_succ (y : ℕ) (h : 1970 ≤ y) : GH.jan1 y < GH.jan1 (y + 1) := by
  unfold GH.jan1
  have hd := daysBefore_succ y h
  have hlt : GH.daysBefore y < GH.daysBefore (y + 1) := by
    rw [hd]; split <;> omega
  have h2 : (GH.daysBefore y : ℤ) < (GH.daysBefore (y + 1) : ℤ) := by exact_mod_cast hlt
  omega

theorem jan1_mono : ∀ b a : ℕ, 1970 ≤ a → a ≤ b → GH.jan1 a ≤ GH.jan1 b := by
  intro b
  induction b with
  | zero =>
    intro a ha hab
    exact absurd hab (by omega)
  | succ n ih =>
    intro a ha hab
    by_cases he : a = n + 1
    · subst he; exact le_refl _
    · have han : a ≤ n := by omega
      have h70 : 1970 ≤ n := by omega
      exact le_trans (ih a ha han) (jan1_lt_succ n h70).le

theorem window_chain (a : ℕ) (ha : 1970 ≤ a) :
    ∀ n : ℕ, ∀ t : ℤ, (GH.jan1 a ≤ t ∧ t < GH.jan1 (a + n)) ↔
      ∃ y, y ∈ List.range' a n ∧ GH.jan1 y ≤ t ∧ t < GH.jan1 (y + 1) := by
  intro n
  induction n with
  | zero =>
    intro t
    simp only [Nat.add_zero, List.range'_zero, List.not_mem_nil, false_and,
      exists_false, iff_false, not_and, not_lt]
    intro h1
    exact h1
  | succ n ih =>
    intro t
    rw [List.range'_concat]
    simp only [one_mul]
    constructor
    · rintro ⟨h1, h2⟩
      by_cases hlt : t < GH.jan1 (a + n)
      · rcases (ih t).mp ⟨h1, hlt⟩ with ⟨y, hy, hyt⟩
        exact ⟨y, List.mem_append.mpr (Or.inl hy), hyt⟩
      · refine ⟨a + n, List.mem_append.mpr (Or.inr (List.mem_singleton.mpr rfl)),
          not_lt.mp hlt, h2⟩
    · rintro ⟨y, hy, hy1, hy2⟩
      rcases List.mem_append.mp hy with hy | hy
      · have hin := (ih t).mpr ⟨y, hy, hy1, hy2⟩
        have hstep : GH.jan1 (a + n) ≤ GH.jan1 (a + (n + 1)) :=
          jan1_mono _ _ (by omega) (by omega)
        exact ⟨hin.1, lt_of_lt_of_le hin.2 hstep⟩
      · rw [List.mem_singleton] at hy
        subst hy
        exact ⟨le_trans (jan1_mono _ _ ha (by omega)) hy1, hy2⟩

theorem mem_winSet_lower (e : ℕ) (now : ℤ) (y : ℕ) (t : ℤ)
    (h : t ∈ GH.winSet e now y) : GH.jan1 y ≤ t := by
  unfold GH.winSet at h
  split at h
  · exact h.1
  · exact h.1

theorem contribFoldl (g : ℕ → GH.Contrib) (l : List ℕ) (init : GH.Contrib) :
    l.foldl (fun acc y => ⟨acc.commits + (g y).commits, acc.prs + (g y).prs,
      acc.issues + (g y).issues, acc.reviews + (g y).reviews⟩) init =
    ⟨init.commits + (l.map fun y => (g y).commits).sum,
      init.prs + (l.map fun y => (g y).prs).sum,
      init.issues + (l.map fun y => (g y).issues).sum,
      init.reviews + (l.map fun y => (g y).reviews).sum⟩ := by
  induction l generalizing init with
  | nil => simp
  | cons x tl ih =>
    simp only [List.foldl_cons, List.map_cons, List.sum_cons, ih]
    simp only [GH.Contrib.mk.injEq]
    omega

/-- C8: the year windows of fetchContribSince2021 partition the span from
January 1 of the fixed start year 2021 (1609459200000 ms UTC) to now:
every instant of the span lies in exactly one window (the final window,
closed at now, is the one of the current year; every earlier window is the
year up to, excluding, the next January 1), and each of the four signals
is the sum of its per-window counts over all windows. -/
theorem contrib_windows_partition (e : ℕ) (now : ℤ) (fetchWin : ℤ → ℤ → GH.Contrib)
    (hE : 2021 ≤ e) (hN : GH.jan1 e ≤ now) :
    GH.jan1 GH.fromYear = 1609459200000 ∧
    (∀ t : ℤ, (GH.jan1 GH.fromYear ≤ t ∧ t ≤ now) ↔
      ∃ y, y ∈ GH.windowsList e ∧ t ∈ GH.winSet e now y) ∧
    (∀ t : ℤ, ∀ y1 ∈ GH.windowsList e, ∀ y2 ∈ GH.windowsList e,
      t ∈ GH.winSet e now y1 → t ∈ GH.winSet e now y2 → y1 = y2) ∧
    ((GH.fetchContribSince2021 e now fetchWin).commits =
      ((GH.windowsList e).map fun y =>
        (fetchWin (GH.jan1 y) (GH.winTo e now y)).commits).sum ∧
     (GH.fetchContribSince2021 e now fetchWin).prs =
      ((GH.windowsList e).map fun y =>
        (fetchWin (GH.jan1 y) (GH.winTo e now y)).prs).sum ∧
     (GH.fetchContribSince2021 e now fetchWin).issues =
      ((GH.windowsList e).map fun y =>
        (fetchWin (GH.jan1 y) (GH.winTo e now y)).issues).sum ∧
     (GH.fetchContribSince2021 e now fetchWin).reviews =
      ((GH.windowsList e).map fun y =>
        (fetchWin (GH.jan1 y) (GH.winTo e now y)).reviews).sum) := by
  have hmemW : ∀ y, y ∈ GH.windowsList e ↔ (2021 ≤ y ∧ y ≤ e) := by
    intro y
    unfold GH.windowsList GH.fromYear
    rw [List.mem_range'_1]
    omega
  refine ⟨by decide, ?_, ?_, ?_⟩
  · intro t
    constructor
    · rintro ⟨h1, h2⟩
      by_cases hlt : t < GH.jan1 e
      · have he2 : 2021 + (e - 2021) = e := by omega
        have hiff := window_chain 2021 (by omega) (e - 2021) t
        rw [he2] at hiff
        have h1f : GH.jan1 GH.fromYear = GH.jan1 2021 := rfl
        rcases hiff.mp ⟨by rw [← h1f]; exact h1, hlt⟩ with ⟨y, hy, hy1, hy2⟩
        rw [List.mem_range'_1] at hy
        have hyne : y ≠ e := by omega
        refine ⟨y, (hmemW y).mpr (by omega), ?_⟩
        unfold GH.winSet
        rw [if_neg hyne]
        exact ⟨hy1, hy2⟩
      · refine ⟨e, (hmemW e).mpr (by omega), ?_⟩
        unfold GH.winSet
        rw [if_pos rfl]
        exact ⟨not_lt.mp hlt, h2⟩
    · rintro ⟨y, hy, hw⟩
      rcases (hmemW y).mp hy with ⟨hy1, hy2⟩
      have hbase : GH.jan1 GH.fromYear ≤ GH.jan1 y :=
        jan1_mono _ _ (by unfold GH.fromYear; omega) hy1
      unfold GH.winSet at hw
      by_cases hye : y = e
      · rw [if_pos hye] at hw
        subst hye
        exact ⟨le_trans hbase hw.1, hw.2⟩
      · rw [if_neg hye] at hw
        have hup : GH.jan1 (y + 1) ≤ GH.jan1 e := jan1_mono _ _ (by omega) (by omega)
        exact ⟨le_trans hbase hw.1, le_trans (le_of_lt (lt_of_lt_of_le hw.2 hup)) hN⟩
  · have haux : ∀ t : ℤ, ∀ y1 y2 : ℕ, y1 ∈ GH.windowsList e → y2 ∈ GH.windowsList e →
        y1 < y2 → t ∈ GH.winSet e now y1 → t ∈ GH.winSet e now y2 → False := by
      intro t y1 y2 hm1 hm2 hlt hw1 hw2
      rcases (hmemW y1).mp hm1 with ⟨ha1, hb1⟩
      rcases (hmemW y2).mp hm2 with ⟨ha2, hb2⟩
      have hy1ne : y1 ≠ e := by omega
      unfold GH.winSet at hw1
      rw [if_neg hy1ne] at hw1
      have hup : GH.jan1 (y1 + 1) ≤ GH.jan1 y2 := jan1_mono _ _ (by omega) (by omega)
      have hlow : GH.jan1 y2 ≤ t := mem_winSet_lower e now y2 t hw2
      have : t < t := lt_of_lt_of_le (lt_of_lt_of_le hw1.2 hup) hlow
      exact absurd this (lt_irrefl t)
    intro t y1 hm1 y2 hm2 hw1 hw2
    rcases Nat.lt_trichotomy y1 y2 with h | h | h
    · exact absurd (haux t y1 y2 hm1 hm2 h hw1 hw2) not_false
    · exact h
    · exact absurd (haux t y2 y1 hm2 hm1 h hw2 hw1) not_false
  · have hfc : GH.fetchContribSince2021 e now fetchWin =
        ⟨0 + ((GH.windowsList e).map fun y =>
            (fetchWin (GH.jan1 y) (GH.winTo e now y)).commits).sum,
          0 + ((GH.windowsList e).map fun y =>
            (fetchWin (GH.jan1 y) (GH.winTo e now y)).prs).sum,
          0 + ((GH.windowsList e).map fun y =>
            (fetchWin (GH.jan1 y) (GH.winTo e now y)).issues).sum,
          0 + ((GH.windowsList e).map fun y =>
            (fetchWin (GH.jan1 y) (GH.winTo e now y)).reviews).sum⟩ := by
      unfold GH.fetchContribSince2021
      exact contribFoldl (fun y => fetchWin (GH.jan1 y) (GH.winTo e now y))
        (GH.windowsList e) ⟨0, 0, 0, 0⟩
    rw [hfc]
    simp

/-- Witness for C8: the partition theorem at the degenerate instant where
now is exactly the start of 2021, with a constant per-window fetch. -/
theorem contrib_windows_partition_witness :
    (GH.fetchContribSince2021 2021 1609459200000 fun _ _ => ⟨5, 6, 7, 8⟩).commits =
      ((GH.windowsList 2021).map fun _ => 5).sum :=
  (contrib_windows_partition 2021 1609459200000 (fun _ _ => ⟨5, 6, 7, 8⟩)
    (by norm_num) (by decide)).2.2.2.1
